import Mathlib

/-!
Shallow embedding of the resilience core of `goldenverba`:
the exception taxonomy (`goldenverba/components/exceptions.py`),
the circuit breaker (`goldenverba/components/circuit_breaker.py`)
and the retry logic (`goldenverba/components/retry.py`).

Timestamps and durations are modelled as integers (the source uses
`datetime`, an integral microsecond count); backoff delays as rationals. the injected `Timer`
collaborator becomes an explicit `now : ℤ` argument on every operation
that reads the clock.  Python exceptions become the `Fault` structure
below, carrying the runtime type, the message and an optional
HTTP-status attribute.  Injected collaborators that only observe
(metrics, alerting, event publishing, swarm broadcast, load balancer)
have no effect on the modelled state and are omitted.
-/

namespace Verba

/-- Python runtime type of a raised exception, as far as the `isinstance`
checks in the resilience core distinguish them.  The `weaviate*` cases
mirror the class hierarchy of `exceptions.py`; `nativeTimeoutError` and
`nativeConnectionError` are Python's builtin `TimeoutError` and
`ConnectionError`; `genericException` is a plain `Exception`. -/
inductive FaultType
  | weaviateError
  | weaviateRetryableError
  | weaviatePermanentError
  | weaviateConnectionError
  | weaviateBatchError
  | weaviateTimeoutError
  | weaviateCircuitBreakerError
  | nativeTimeoutError
  | nativeConnectionError
  | genericException
  deriving DecidableEq, Repr

/-- A raised exception as seen by the resilience core: its runtime type,
its message (`str(exception)`) and the optional status attribute a
status analyzer may extract. -/
structure Fault where
  ftype : FaultType
  message : String
  statusCode : Option Int := none
  deriving DecidableEq, Repr

/-- `isinstance(e, (TimeoutError, ConnectionError))` on the modelled
runtime types (`exceptions.py`, `ErrorClassifier.is_retryable`). -/
def Fault.is_native_timeout_or_connection (e : Fault) : Bool :=
  e.ftype = FaultType.nativeTimeoutError || e.ftype = FaultType.nativeConnectionError

/-- `circuit_breaker.DefaultErrorClassifier.is_circuit_breaking_error`:
`isinstance(error, (WeaviateConnectionError, WeaviateTimeoutError))`
(neither class has subclasses in the source). -/
def default_circuit_classifier (e : Fault) : Bool :=
  e.ftype = FaultType.weaviateConnectionError || e.ftype = FaultType.weaviateTimeoutError

/-- `retry.DefaultErrorClassifier.is_retryable`:
`not isinstance(exception, WeaviatePermanentError)` (the class has no
subclasses in the source). -/
def default_retry_classifier (e : Fault) : Bool :=
  !(e.ftype = FaultType.weaviatePermanentError)

/-- `CircuitBreakerState` (`circuit_breaker.py`). -/
inductive CircuitBreakerState
  | CLOSED
  | OPEN
  | HALF_OPEN
  deriving DecidableEq, Repr

/-- `FailureThreshold` (`circuit_breaker.py`): failure counting against a
configured maximum, with an optional injected error classifier.  The
classifier collaborator is embedded as an optional Boolean predicate. -/
structure FailureThreshold where
  max_failures : Nat
  current_count : Nat
  error_classifier : Option (Fault → Bool)

/-- Whether `FailureThreshold.increment_failure` counts this fault: it
returns early iff a classifier is attached and deems the fault not
circuit-breaking. -/
def FailureThreshold.counts_error (ft : FailureThreshold) (e : Fault) : Bool :=
  match ft.error_classifier with
  | none => true
  | some cl => cl e

/-- `FailureThreshold.increment_failure`: increment `current_count`
unless an attached classifier rejects the fault.  Metrics reporting has
no effect on the modelled state. -/
def FailureThreshold.increment_failure (ft : FailureThreshold) (e : Fault) : FailureThreshold :=
  if ft.counts_error e then { ft with current_count := ft.current_count + 1 } else ft

/-- `FailureThreshold.is_threshold_breached`: `current_count >= max_failures`. -/
def FailureThreshold.is_threshold_breached (ft : FailureThreshold) : Bool :=
  ft.max_failures ≤ ft.current_count

/-- `FailureThreshold.reset`: zero the counter. -/
def FailureThreshold.reset (ft : FailureThreshold) : FailureThreshold :=
  { ft with current_count := 0 }

/-- `TimeWindow` (`circuit_breaker.py`): durations plus the optional
timestamp of the last recorded failure.  The injected `Timer` becomes an
explicit `now` argument on the queries below. -/
structure TimeWindow where
  window_duration : ℤ
  timeout_duration : ℤ
  last_failure_time : Option ℤ

/-- `TimeWindow.is_timeout_expired`: `True` when no failure was ever
recorded, else `now - last_failure_time >= timeout_duration`. -/
def TimeWindow.is_timeout_expired (tw : TimeWindow) (now : ℤ) : Bool :=
  match tw.last_failure_time with
  | none => true
  | some t => tw.timeout_duration ≤ now - t

/-- `TimeWindow.is_within_window`: `now - failure_time <= window_duration`. -/
def TimeWindow.is_within_window (tw : TimeWindow) (now failure_time : ℤ) : Bool :=
  now - failure_time ≤ tw.window_duration

/-- `TimeWindow.record_failure_time`: stamp the current time. -/
def TimeWindow.record_failure_time (tw : TimeWindow) (now : ℤ) : TimeWindow :=
  { tw with last_failure_time := some now }

/-- `WeaviateCircuitBreaker` (`circuit_breaker.py`): the mutable state of
one breaker.  Observer collaborators (metrics, events, alerting, swarm,
load balancer) never touch this state and are omitted;
`circuit_id`/`protected_endpoint` are identification labels with no
behavioural role. -/
structure WeaviateCircuitBreaker where
  current_state : CircuitBreakerState
  last_state_change : ℤ
  failure_threshold : FailureThreshold
  time_window : TimeWindow

/-- `WeaviateCircuitBreaker._transition_to_state`: set the new state and
stamp the change time; observer notification has no state effect. -/
def WeaviateCircuitBreaker.transition_to_state
    (b : WeaviateCircuitBreaker) (new_state : CircuitBreakerState) (now : ℤ) :
    WeaviateCircuitBreaker :=
  { b with current_state := new_state, last_state_change := now }

/-- `WeaviateCircuitBreaker.should_allow_request`: CLOSED allows; OPEN
allows (moving to HALF_OPEN) exactly when the timeout expired; HALF_OPEN
allows.  Returns the decision together with the updated breaker. -/
def WeaviateCircuitBreaker.should_allow_request
    (b : WeaviateCircuitBreaker) (now : ℤ) : Bool × WeaviateCircuitBreaker :=
  match b.current_state with
  | CircuitBreakerState.CLOSED => (true, b)
  | CircuitBreakerState.OPEN =>
      if b.time_window.is_timeout_expired now then
        (true, b.transition_to_state CircuitBreakerState.HALF_OPEN now)
      else
        (false, b)
  | CircuitBreakerState.HALF_OPEN => (true, b)

/-- `WeaviateCircuitBreaker.record_failure`: stamp the failure time,
increment the (classified) failure count, then transition —
CLOSED trips to OPEN when the threshold is breached, HALF_OPEN re-opens
on any failure. -/
def WeaviateCircuitBreaker.record_failure
    (b : WeaviateCircuitBreaker) (e : Fault) (now : ℤ) : WeaviateCircuitBreaker :=
  let b := { b with time_window := b.time_window.record_failure_time now }
  let b := { b with failure_threshold := b.failure_threshold.increment_failure e }
  match b.current_state with
  | CircuitBreakerState.CLOSED =>
      if b.failure_threshold.is_threshold_breached then
        b.transition_to_state CircuitBreakerState.OPEN now
      else
        b
  | CircuitBreakerState.HALF_OPEN => b.transition_to_state CircuitBreakerState.OPEN now
  | CircuitBreakerState.OPEN => b

/-- `WeaviateCircuitBreaker.record_success`: only a HALF_OPEN breaker
reacts — reset the failure count and close. -/
def WeaviateCircuitBreaker.record_success
    (b : WeaviateCircuitBreaker) (now : ℤ) : WeaviateCircuitBreaker :=
  if b.current_state = CircuitBreakerState.HALF_OPEN then
    ({ b with failure_threshold := b.failure_threshold.reset }).transition_to_state
      CircuitBreakerState.CLOSED now
  else
    b

/-- `record_failure` applied `n` times with the same fault and timestamp,
modelling a sequence of identical failures. -/
def record_failures_n
    (b : WeaviateCircuitBreaker) (e : Fault) (now : ℤ) : Nat → WeaviateCircuitBreaker
  | 0 => b
  | n + 1 => (record_failures_n b e now n).record_failure e now

/-- `StatusAnalyzer` collaborator of `exceptions.ErrorClassifier`:
extract an HTTP-like status and judge its retryability. -/
structure StatusAnalyzer where
  extract_status : Fault → Option Int
  is_retryable_status : Int → Bool

/-- `MessageAnalyzer` collaborator of `exceptions.ErrorClassifier`:
detect a timeout indicator in the message. -/
structure MessageAnalyzer where
  contains_timeout_indicator : String → Bool

/-- `exceptions.ErrorClassifier`: optional status and message analyzers
(the error factory only shapes `create_typed_error`, not retryability,
and is omitted). -/
structure ErrorClassifier where
  status_analyzer : Option StatusAnalyzer
  message_analyzer : Option MessageAnalyzer

/-- `exceptions.ErrorClassifier.is_retryable`: a present, truthy status
(Python `if status:`, so a zero status falls through) delegates to the
status table; else a timeout indicator in the message means retryable;
else builtin `TimeoutError`/`ConnectionError` types are retryable; else
not retryable. -/
def ErrorClassifier.is_retryable (c : ErrorClassifier) (e : Fault) : Bool :=
  let statusVerdict : Option Bool :=
    match c.status_analyzer with
    | none => none
    | some sa =>
        match sa.extract_status e with
        | none => none
        | some s => if s = 0 then none else some (sa.is_retryable_status s)
  match statusVerdict with
  | some verdict => verdict
  | none =>
      let timeoutHit : Bool :=
        match c.message_analyzer with
        | none => false
        | some ma => ma.contains_timeout_indicator e.message
      if timeoutHit then true
      else if e.is_native_timeout_or_connection then true
      else false

/-- Does `needle` occur at the head of `haystack`? -/
def seqMatchesAt : List Char → List Char → Bool
  | [], _ => true
  | _ :: _, [] => false
  | a :: as, b :: bs => a = b && seqMatchesAt as bs

/-- Does `needle` occur anywhere inside `haystack` (substring test)? -/
def seqContains (needle : List Char) : List Char → Bool
  | [] => seqMatchesAt needle []
  | c :: rest => seqMatchesAt needle (c :: rest) || seqContains needle rest

/-- Modelled from the spec: the default status-code retryability table
("429 and 5xx → retryable, 4xx other → permanent").  No concrete
`StatusAnalyzer` exists under `src/` — only the Protocol — so the table
follows the spec's words; codes outside 4xx/5xx other than 429 are not
retryable. -/
def default_status_table (s : Int) : Bool :=
  s = 429 || (500 ≤ s && s < 600)

/-- Modelled from the spec: a timeout indicator is a substring match
against the configurable list, e.g. "timeout", "timed out".  No concrete
`MessageAnalyzer` exists under `src/` — only the Protocol. -/
def spec_timeout_indicator (m : String) : Bool :=
  seqContains "timeout".data m.data || seqContains "timed out".data m.data

/-- A `StatusAnalyzer` reading the fault's status attribute and judging
it by the spec's default table. -/
def spec_status_analyzer : StatusAnalyzer :=
  { extract_status := fun e => e.statusCode
    is_retryable_status := default_status_table }

/-- The classifier of `exceptions.py` wired with the spec-modelled
status and message analyzers. -/
def spec_classifier : ErrorClassifier :=
  { status_analyzer := some spec_status_analyzer
    message_analyzer := some { contains_timeout_indicator := spec_timeout_indicator } }

/-- Outcome of one classification step in the order the spec prescribes:
either the status table decided retryability, or the fault is
`Retryable::Timeout` (message indicator), `Retryable::Connection`
(native type), or `Permanent`. -/
inductive ClassDecision
  | statusDecided (retryable : Bool)
  | retryableTimeout
  | retryableConnection
  | permanent
  deriving DecidableEq, Repr

/-- Modelled from the spec: the classification order of §4.1 —
(a) a carried HTTP-like status code decides via the table; (b) else a
timeout indicator in the message gives `Retryable::Timeout`; (c) else a
native connection/timeout type gives `Retryable::Connection`; (d) else
`Permanent`. -/
def spec_classification (e : Fault) : ClassDecision :=
  let carried : Option Int :=
    match e.statusCode with
    | none => none
    | some s => if s = 0 then none else some s
  match carried with
  | some s => ClassDecision.statusDecided (default_status_table s)
  | none =>
      if spec_timeout_indicator e.message then ClassDecision.retryableTimeout
      else if e.is_native_timeout_or_connection then ClassDecision.retryableConnection
      else ClassDecision.permanent

/-- Retryability a `ClassDecision` entails (`Permanent` never retried,
`Retryable` subtypes retried, a status verdict taken as-is). -/
def ClassDecision.retryable : ClassDecision → Bool
  | ClassDecision.statusDecided b => b
  | ClassDecision.retryableTimeout => true
  | ClassDecision.retryableConnection => true
  | ClassDecision.permanent => false

/-- `RetryPolicy` (`retry.py`): attempt bound, base delay, the error
classifier collaborator (defaulting to `DefaultErrorClassifier`) and an
optional circuit breaker.  The backoff calculator only shapes delays,
which no retry decision reads, and the metrics collector only observes. -/
structure RetryPolicy where
  max_attempts : Nat
  base_delay : ℚ
  error_classifier : Fault → Bool
  circuit_breaker : Option WeaviateCircuitBreaker

/-- `RetryPolicy.should_retry`: no retry once `attempt >= max_attempts`,
none for a non-retryable fault, none when an attached breaker rejects
the request.  Consulting the breaker calls `should_allow_request`, which
can move it OPEN → HALF_OPEN, so the updated policy is returned too. -/
def RetryPolicy.should_retry
    (p : RetryPolicy) (now : ℤ) (attempt : Nat) (e : Fault) : Bool × RetryPolicy :=
  if p.max_attempts ≤ attempt then (false, p)
  else if !p.error_classifier e then (false, p)
  else
    match p.circuit_breaker with
    | none => (true, p)
    | some cb =>
        let q := cb.should_allow_request now
        let p' := { p with circuit_breaker := some q.2 }
        if !q.1 then (false, p') else (true, p')

/-- `ExponentialBackoffStrategy` (`retry.py`). -/
structure ExponentialBackoffStrategy where
  base_delay : ℚ
  max_delay : ℚ
  multiplier : ℚ

/-- `ExponentialBackoffStrategy.calculate_delay`:
`min(base_delay * multiplier ** (attempt - 1), max_delay)`.  The
exponent is a natural number, so the embedding is faithful for
`attempt ≥ 1` (Python would use a negative exponent at `attempt = 0`). -/
def ExponentialBackoffStrategy.calculate_delay
    (s : ExponentialBackoffStrategy) (attempt : Nat) : ℚ :=
  min (s.base_delay * s.multiplier ^ (attempt - 1)) s.max_delay

/-- `LinearBackoffStrategy` (`retry.py`). -/
structure LinearBackoffStrategy where
  base_delay : ℚ
  increment : ℚ

/-- `LinearBackoffStrategy.calculate_delay`:
`base_delay + (attempt - 1) * increment` (faithful for `attempt ≥ 1`). -/
def LinearBackoffStrategy.calculate_delay
    (s : LinearBackoffStrategy) (attempt : Nat) : ℚ :=
  s.base_delay + (attempt - 1 : Nat) * s.increment

/-- What one invocation of the protected operation does: return a value
or raise a fault.  A whole run of `execute_with_retry` is driven by a
script `ops : Nat → RetryOutcome` giving the outcome of the invocation
made at each attempt number. -/
inductive RetryOutcome
  | ok (v : Nat)
  | err (e : Fault)
  deriving DecidableEq, Repr

/-- The mutable state of `WeaviateRetryHandler.execute_with_retry`:
the attempt counter, `last_exception`, the handler's own breaker
(`self._circuit_breaker`) and the policy (whose breaker, when attached,
is a distinct object — the embedding models the non-aliased wiring). -/
structure RetryState where
  attempt : Nat
  last_exception : Option Fault
  circuit_breaker : Option WeaviateCircuitBreaker
  policy : RetryPolicy

/-- Final outcome of a bounded run of the retry loop. -/
inductive RetryExec
  | success (v : Nat) (s : RetryState)
  | failure (e : Fault) (s : RetryState)
  | outOfFuel (s : RetryState)

/-- The fresh exception `execute_with_retry` raises on a rejected
request with no earlier fault: the plain
`Exception("Circuit breaker open")` of `retry.py` line 382 — a
`genericException`, not a `WeaviateCircuitBreakerError`. -/
def circuit_open_exception : Fault :=
  { ftype := FaultType.genericException, message := "Circuit breaker open" }

/-- Result of one iteration of the retry loop: the loop is done with a
final outcome, or continues in a new state. -/
inductive RetryStepResult
  | done (r : RetryExec)
  | next (s : RetryState)

/-- The `except` clause of `execute_with_retry`: remember the exception,
report it to the handler's breaker, consult `should_retry`; re-raise if
retrying is refused, otherwise sleep (time advances via the caller's
time script) and increment the attempt counter. -/
def retry_handle_exception (s : RetryState) (e : Fault) (now : ℤ) : RetryStepResult :=
  let s := { s with last_exception := some e }
  let s :=
    match s.circuit_breaker with
    | none => s
    | some cb => { s with circuit_breaker := some (cb.record_failure e now) }
  let pr := s.policy.should_retry now s.attempt e
  let s := { s with policy := pr.2 }
  if pr.1 then RetryStepResult.next { s with attempt := s.attempt + 1 }
  else RetryStepResult.done (RetryExec.failure e s)

/-- One iteration of the `while True:` loop of `execute_with_retry`:
if a breaker is attached and rejects, raise the last known fault (or the
fresh `Exception("Circuit breaker open")`) — note the `raise` sits inside
the `try`, so the exception lands in the same iteration's `except`
clause; otherwise invoke the operation and return its value or handle
the fault it raised. -/
def retry_step (ops : Nat → RetryOutcome) (tseq : Nat → ℤ) (s0 : RetryState) :
    RetryStepResult :=
  let now := tseq s0.attempt
  match s0.circuit_breaker with
  | some cb =>
      let q := cb.should_allow_request now
      let s1 := { s0 with circuit_breaker := some q.2 }
      if !q.1 then
        retry_handle_exception s1 (s1.last_exception.getD circuit_open_exception) now
      else
        match ops s1.attempt with
        | RetryOutcome.ok v => RetryStepResult.done (RetryExec.success v s1)
        | RetryOutcome.err e => retry_handle_exception s1 e now
  | none =>
      match ops s0.attempt with
      | RetryOutcome.ok v => RetryStepResult.done (RetryExec.success v s0)
      | RetryOutcome.err e => retry_handle_exception s0 e now

/-- `WeaviateRetryHandler.execute_with_retry`, driven by an outcome
script and a time script (the clock reading at each attempt number),
bounded by fuel since the source loop is unbounded. -/
def execute_with_retry (ops : Nat → RetryOutcome) (tseq : Nat → ℤ) :
    Nat → RetryState → RetryExec
  | 0, s => RetryExec.outOfFuel s
  | fuel + 1, s =>
      match retry_step ops tseq s with
      | RetryStepResult.done r => r
      | RetryStepResult.next s' => execute_with_retry ops tseq fuel s'

/-- The fault a finished run surfaced, if any. -/
def RetryExec.raised : RetryExec → Option Fault
  | RetryExec.failure e _ => some e
  | _ => none

/-- The attempt counter in the final state of a run. -/
def RetryExec.final_attempt : RetryExec → Nat
  | RetryExec.success _ s => s.attempt
  | RetryExec.failure _ s => s.attempt
  | RetryExec.outOfFuel s => s.attempt

/-- The failure count of the handler's breaker in the final state. -/
def RetryExec.final_breaker_count : RetryExec → Option Nat
  | RetryExec.success _ s => s.circuit_breaker.map fun cb => cb.failure_threshold.current_count
  | RetryExec.failure _ s => s.circuit_breaker.map fun cb => cb.failure_threshold.current_count
  | RetryExec.outOfFuel s => s.circuit_breaker.map fun cb => cb.failure_threshold.current_count

/-- What one invocation of the batch operation does: return the
successes/failures split, or raise a fault
(`execute_batch_with_partial_retry`, `retry.py`).  Items are modelled
as naturals. -/
inductive BatchOutcome
  | result (successes failures : List Nat)
  | raised (e : Fault)

/-- The loop state of `execute_batch_with_partial_retry`: running
totals, the remaining (previously failed) items and the policy. -/
structure BatchState where
  total_successes : Nat
  total_failures : Nat
  remaining : List Nat
  policy : RetryPolicy

/-- Result of one iteration of the batch loop: finished with the totals
dictionary (and final state), or continue. -/
inductive BatchStepResult
  | done (totals : Nat × Nat) (s : BatchState)
  | next (s : BatchState)

/-- One iteration of the `while remaining_items:` loop of
`execute_batch_with_partial_retry`: exit with the totals when nothing
remains; on a result, add the successes, keep only the failed subset and
break when it is empty; on a raised fault, consult
`should_retry(1, e)` — when refused, count the whole remaining batch as
failed and exit, otherwise sleep and loop with the same items. -/
def batch_step (ops : Nat → BatchOutcome) (tseq : Nat → ℤ) (round : Nat)
    (s : BatchState) : BatchStepResult :=
  if s.remaining.isEmpty then
    BatchStepResult.done (s.total_successes, s.total_failures) s
  else
    match ops round with
    | BatchOutcome.result successes failures =>
        let s := { s with
          total_successes := s.total_successes + successes.length
          remaining := failures }
        if s.remaining.isEmpty then
          BatchStepResult.done (s.total_successes, s.total_failures) s
        else
          BatchStepResult.next s
    | BatchOutcome.raised e =>
        let pr := s.policy.should_retry (tseq round) 1 e
        let s := { s with policy := pr.2 }
        if pr.1 then
          BatchStepResult.next s
        else
          let s := { s with total_failures := s.total_failures + s.remaining.length }
          BatchStepResult.done (s.total_successes, s.total_failures) s

/-- `WeaviateRetryHandler.execute_batch_with_partial_retry`, driven by a
script of per-round outcomes and a time script, bounded by fuel since
the source loop is unbounded; `none` means the fuel ran out with the
loop still going. -/
def execute_batch_with_partial_retry (ops : Nat → BatchOutcome) (tseq : Nat → ℤ) :
    Nat → Nat → BatchState → Option ((Nat × Nat) × BatchState)
  | 0, _, _ => none
  | fuel + 1, round, s =>
      match batch_step ops tseq round s with
      | BatchStepResult.done t s' => some (t, s')
      | BatchStepResult.next s' => execute_batch_with_partial_retry ops tseq fuel (round + 1) s'

/-! ### Helper lemmas about `record_failure` -/

/-- `record_failure` never changes `max_failures`. -/
lemma record_failure_max (b : WeaviateCircuitBreaker) (e : Fault) (now : ℤ) :
    (b.record_failure e now).failure_threshold.max_failures =
      b.failure_threshold.max_failures := by
  unfold WeaviateCircuitBreaker.record_failure
  cases b.current_state <;>
    simp [WeaviateCircuitBreaker.transition_to_state, FailureThreshold.increment_failure] <;>
    split <;> (try split) <;> rfl

/-- `record_failure` never changes the attached error classifier. -/
lemma record_failure_classifier (b : WeaviateCircuitBreaker) (e : Fault) (now : ℤ) :
    (b.record_failure e now).failure_threshold.error_classifier =
      b.failure_threshold.error_classifier := by
  unfold WeaviateCircuitBreaker.record_failure
  cases b.current_state <;>
    simp [WeaviateCircuitBreaker.transition_to_state, FailureThreshold.increment_failure] <;>
    split <;> (try split) <;> rfl

/-- `record_failure` never changes `timeout_duration`. -/
lemma record_failure_timeout_duration (b : WeaviateCircuitBreaker) (e : Fault) (now : ℤ) :
    (b.record_failure e now).time_window.timeout_duration =
      b.time_window.timeout_duration := by
  unfold WeaviateCircuitBreaker.record_failure
  cases b.current_state <;>
    simp [WeaviateCircuitBreaker.transition_to_state, TimeWindow.record_failure_time] <;>
    split <;> (try split) <;> rfl

/-- `record_failure` always stamps the failure time, in every state and
for every fault. -/
lemma record_failure_stamps (b : WeaviateCircuitBreaker) (e : Fault) (now : ℤ) :
    (b.record_failure e now).time_window.last_failure_time = some now := by
  unfold WeaviateCircuitBreaker.record_failure
  cases b.current_state <;>
    simp [WeaviateCircuitBreaker.transition_to_state, TimeWindow.record_failure_time] <;>
    split <;> (try split) <;> rfl

/-- `counts_error` is read off the classifier field alone. -/
lemma counts_error_congr {ft ft' : FailureThreshold} (e : Fault)
    (h : ft.error_classifier = ft'.error_classifier) :
    ft.counts_error e = ft'.counts_error e := by
  unfold FailureThreshold.counts_error
  rw [h]

/-- The single CLOSED-state step of `record_failure` for a counted
fault: the count grows by one, threshold configuration is untouched, and
the state trips to OPEN exactly when the grown count reaches the
maximum. -/
lemma record_failure_closed_step (b : WeaviateCircuitBreaker) (e : Fault) (now : ℤ)
    (hs : b.current_state = CircuitBreakerState.CLOSED)
    (hc : b.failure_threshold.counts_error e = true) :
    (b.record_failure e now).failure_threshold.current_count =
        b.failure_threshold.current_count + 1 ∧
    (b.record_failure e now).current_state =
      (if b.failure_threshold.max_failures ≤ b.failure_threshold.current_count + 1 then
        CircuitBreakerState.OPEN else CircuitBreakerState.CLOSED) := by
  unfold WeaviateCircuitBreaker.record_failure
  simp only [hs, FailureThreshold.increment_failure, hc, if_true]
  constructor
  · split <;> rfl
  · by_cases hbr :
      b.failure_threshold.max_failures ≤ b.failure_threshold.current_count + 1
    · rw [if_pos hbr]
      have : (FailureThreshold.is_threshold_breached
          { b.failure_threshold with current_count := b.failure_threshold.current_count + 1 })
          = true := by
        simp [FailureThreshold.is_threshold_breached, hbr]
      simp [this, WeaviateCircuitBreaker.transition_to_state]
    · rw [if_neg hbr]
      have : (FailureThreshold.is_threshold_breached
          { b.failure_threshold with current_count := b.failure_threshold.current_count + 1 })
          = false := by
        simp [FailureThreshold.is_threshold_breached]
        omega
      simp [this, hs]

/-! ### C2 -/

/-- C2: for an OPEN breaker with a recorded last failure,
`should_allow_request` returns `false` (and stays OPEN) while the
elapsed time is below `timeout_duration`, and returns `true` moving to
HALF_OPEN once the elapsed time reaches it; and `is_timeout_expired` is
`true` whenever `last_failure_time` is unset. -/
theorem C2_open_timeout_gate :
    (∀ (b : WeaviateCircuitBreaker) (now t : ℤ),
        b.current_state = CircuitBreakerState.OPEN →
        b.time_window.last_failure_time = some t →
        ((now - t < b.time_window.timeout_duration →
            (b.should_allow_request now).1 = false ∧
            (b.should_allow_request now).2.current_state = CircuitBreakerState.OPEN) ∧
          (b.time_window.timeout_duration ≤ now - t →
            (b.should_allow_request now).1 = true ∧
            (b.should_allow_request now).2.current_state = CircuitBreakerState.HALF_OPEN))) ∧
    (∀ (tw : TimeWindow) (now : ℤ),
        tw.last_failure_time = none → tw.is_timeout_expired now = true) := by
  constructor
  · intro b now t hs hlast
    constructor
    · intro hlt
      have hexp : b.time_window.is_timeout_expired now = false := by
        simp [TimeWindow.is_timeout_expired, hlast]
        linarith
      constructor <;>
        simp [WeaviateCircuitBreaker.should_allow_request, hs, hexp]
    · intro hge
      have hexp : b.time_window.is_timeout_expired now = true := by
        simp [TimeWindow.is_timeout_expired, hlast, hge]
      constructor <;>
        simp [WeaviateCircuitBreaker.should_allow_request, hs, hexp,
          WeaviateCircuitBreaker.transition_to_state]
  · intro tw now h
    simp [TimeWindow.is_timeout_expired, h]

/-- Concrete OPEN breaker used to witness C2: last failure at time 0,
timeout 60. -/
def cbC2 : WeaviateCircuitBreaker :=
  { current_state := CircuitBreakerState.OPEN
    last_state_change := 0
    failure_threshold := { max_failures := 5, current_count := 5, error_classifier := none }
    time_window := { window_duration := 300, timeout_duration := 60, last_failure_time := some 0 } }

/-- Witness for C2 at the concrete breaker `cbC2`. -/
theorem C2_witness :
    ((cbC2.should_allow_request 30).1 = false ∧
      (cbC2.should_allow_request 30).2.current_state = CircuitBreakerState.OPEN) ∧
    ((cbC2.should_allow_request 90).1 = true ∧
      (cbC2.should_allow_request 90).2.current_state = CircuitBreakerState.HALF_OPEN) ∧
    ({ window_duration := 300, timeout_duration := 60,
        last_failure_time := none : TimeWindow }.is_timeout_expired 7 = true) :=
  ⟨(C2_open_timeout_gate.1 cbC2 30 0 rfl rfl).1 (by norm_num [cbC2]),
    ⟨(C2_open_timeout_gate.1 cbC2 90 0 rfl rfl).2 (by norm_num [cbC2]),
      C2_open_timeout_gate.2 _ 7 rfl⟩⟩

/-! ### C7 -/

/-- C7: the pre-jitter exponential backoff delay for attempt `a ≥ 1` is
`min(base_delay * multiplier^(a-1), max_delay)`, and with
`base_delay = 1, multiplier = 2, max_delay = 100` the delays for
attempts 1–4 are 1, 2, 4, 8. -/
theorem C7_exponential_backoff :
    (∀ (s : ExponentialBackoffStrategy) (a : Nat), 1 ≤ a →
        s.calculate_delay a = min (s.base_delay * s.multiplier ^ (a - 1)) s.max_delay) ∧
    ((ExponentialBackoffStrategy.mk 1 100 2).calculate_delay 1 = 1 ∧
      (ExponentialBackoffStrategy.mk 1 100 2).calculate_delay 2 = 2 ∧
      (ExponentialBackoffStrategy.mk 1 100 2).calculate_delay 3 = 4 ∧
      (ExponentialBackoffStrategy.mk 1 100 2).calculate_delay 4 = 8) := by
  refine ⟨fun s a _ => rfl, ?_, ?_, ?_, ?_⟩ <;>
    simp [ExponentialBackoffStrategy.calculate_delay] <;> norm_num

/-- Witness for C7 at attempt 3 of the concrete strategy. -/
theorem C7_witness :
    (ExponentialBackoffStrategy.mk 1 100 2).calculate_delay 3 =
      min ((1 : ℚ) * 2 ^ (3 - 1)) 100 :=
  C7_exponential_backoff.1 (ExponentialBackoffStrategy.mk 1 100 2) 3 (by norm_num)

/-! ### C10 -/

/-- C10: every `record_failure` stamps `last_failure_time` with the
current time, whatever the state and fault; consequently an OPEN breaker
stays OPEN after recording any fault, and `should_allow_request` keeps
rejecting until `timeout_duration` has elapsed since that new stamp. -/
theorem C10_record_failure_restarts_timeout :
    ∀ (b : WeaviateCircuitBreaker) (e : Fault) (now : ℤ),
      (b.record_failure e now).time_window.last_failure_time = some now ∧
      (b.current_state = CircuitBreakerState.OPEN →
        (b.record_failure e now).current_state = CircuitBreakerState.OPEN ∧
        ∀ now' : ℤ, now' - now < b.time_window.timeout_duration →
          ((b.record_failure e now).should_allow_request now').1 = false ∧
          ((b.record_failure e now).should_allow_request now').2.current_state =
            CircuitBreakerState.OPEN) := by
  intro b e now
  refine ⟨record_failure_stamps b e now, fun hs => ⟨?_, ?_⟩⟩
  · unfold WeaviateCircuitBreaker.record_failure
    simp [hs]
  · intro now' hlt
    have hopen : (b.record_failure e now).current_state = CircuitBreakerState.OPEN := by
      unfold WeaviateCircuitBreaker.record_failure
      simp [hs]
    have hexp : (b.record_failure e now).time_window.is_timeout_expired now' = false := by
      simp [TimeWindow.is_timeout_expired, record_failure_stamps b e now]
      rw [record_failure_timeout_duration b e now]
      linarith
    constructor <;>
      simp [WeaviateCircuitBreaker.should_allow_request, hopen, hexp]

/-- Concrete OPEN breaker used to witness C10. -/
def cbC10 : WeaviateCircuitBreaker :=
  { current_state := CircuitBreakerState.OPEN
    last_state_change := 0
    failure_threshold := { max_failures := 3, current_count := 3, error_classifier := none }
    time_window := { window_duration := 300, timeout_duration := 60, last_failure_time := some 0 } }

/-- A permanent (non-circuit-relevant under the default circuit
classifier) fault used by several concrete scenarios. -/
def faultPerm : Fault :=
  { ftype := FaultType.weaviatePermanentError, message := "invalid schema" }

/-- Witness for C10: recording even a permanent fault at time 50 on the
OPEN `cbC10` restamps the clock, so the probe at time 80 (only 30 after
the new stamp) is still rejected. -/
theorem C10_witness :
    (cbC10.record_failure faultPerm 50).time_window.last_failure_time = some 50 ∧
    (cbC10.record_failure faultPerm 50).current_state = CircuitBreakerState.OPEN ∧
    ((cbC10.record_failure faultPerm 50).should_allow_request 80).1 = false :=
  ⟨(C10_record_failure_restarts_timeout cbC10 faultPerm 50).1,
    ((C10_record_failure_restarts_timeout cbC10 faultPerm 50).2 rfl).1,
    (((C10_record_failure_restarts_timeout cbC10 faultPerm 50).2 rfl).2 80 (by norm_num [cbC10])).1⟩

/-! ### C1 -/

/-- Invariant along a run of counted failures from a fresh CLOSED
breaker: below the threshold the breaker stays CLOSED and the count
tracks the number of failures, with the configuration untouched. -/
lemma record_failures_invariant (b : WeaviateCircuitBreaker) (e : Fault) (now : ℤ)
    (N : Nat)
    (hs : b.current_state = CircuitBreakerState.CLOSED)
    (hcount : b.failure_threshold.current_count = 0)
    (hmax : b.failure_threshold.max_failures = N)
    (hcl : b.failure_threshold.counts_error e = true) :
    ∀ k, k < N →
      (record_failures_n b e now k).current_state = CircuitBreakerState.CLOSED ∧
      (record_failures_n b e now k).failure_threshold.current_count = k ∧
      (record_failures_n b e now k).failure_threshold.max_failures = N ∧
      (record_failures_n b e now k).failure_threshold.counts_error e = true := by
  intro k
  induction k with
  | zero => exact fun _ => ⟨hs, hcount, hmax, hcl⟩
  | succ k ih =>
      intro hk
      obtain ⟨ihs, ihc, ihm, ihcl⟩ := ih (Nat.lt_of_succ_lt hk)
      have step := record_failure_closed_step (record_failures_n b e now k) e now ihs ihcl
      have hnotrip :
          ¬ (record_failures_n b e now k).failure_threshold.max_failures ≤
            (record_failures_n b e now k).failure_threshold.current_count + 1 := by
        rw [ihm, ihc]; omega
      refine ⟨?_, ?_, ?_, ?_⟩
      · rw [show record_failures_n b e now (k + 1) =
            (record_failures_n b e now k).record_failure e now from rfl,
          step.2, if_neg hnotrip]
      · rw [show record_failures_n b e now (k + 1) =
            (record_failures_n b e now k).record_failure e now from rfl,
          step.1, ihc]
      · rw [show record_failures_n b e now (k + 1) =
            (record_failures_n b e now k).record_failure e now from rfl,
          record_failure_max, ihm]
      · rw [show record_failures_n b e now (k + 1) =
            (record_failures_n b e now k).record_failure e now from rfl,
          counts_error_congr e (record_failure_classifier _ e now), ihcl]

/-- C1 (amended): for `max_failures = N` with `N ≥ 1`, a fresh CLOSED
breaker is still CLOSED after `N − 1` counted failures and OPEN after
the `N`-th.  (The claim's universal form fails at `N = 0`, where the
breaker starts CLOSED and zero failures trigger no transition.) -/
theorem C1_threshold_trips :
    ∀ (b : WeaviateCircuitBreaker) (e : Fault) (now : ℤ) (N : Nat),
      1 ≤ N →
      b.current_state = CircuitBreakerState.CLOSED →
      b.failure_threshold.current_count = 0 →
      b.failure_threshold.max_failures = N →
      b.failure_threshold.counts_error e = true →
      (record_failures_n b e now (N - 1)).current_state = CircuitBreakerState.CLOSED ∧
      (record_failures_n b e now N).current_state = CircuitBreakerState.OPEN := by
  intro b e now N hN hs hcount hmax hcl
  have hpred : N - 1 < N := Nat.sub_lt hN Nat.one_pos
  obtain ⟨ihs, ihc, ihm, ihcl⟩ :=
    record_failures_invariant b e now N hs hcount hmax hcl (N - 1) hpred
  refine ⟨ihs, ?_⟩
  have step := record_failure_closed_step (record_failures_n b e now (N - 1)) e now ihs ihcl
  have htrip :
      (record_failures_n b e now (N - 1)).failure_threshold.max_failures ≤
        (record_failures_n b e now (N - 1)).failure_threshold.current_count + 1 := by
    rw [ihm, ihc]; omega
  have hlast : record_failures_n b e now N =
      (record_failures_n b e now (N - 1)).record_failure e now := by
    have : N = (N - 1) + 1 := by omega
    rw [this]; rfl
  rw [hlast, step.2, if_pos htrip]

/-- A circuit-relevant fault under the default circuit classifier. -/
def faultConn : Fault :=
  { ftype := FaultType.weaviateConnectionError, message := "connection refused" }

/-- Fresh CLOSED breaker with `max_failures = 0`, constructible through
`FailureThreshold(max_failures=0)`. -/
def cbC1 : WeaviateCircuitBreaker :=
  { current_state := CircuitBreakerState.CLOSED
    last_state_change := 0
    failure_threshold := { max_failures := 0, current_count := 0, error_classifier := none }
    time_window := { window_duration := 300, timeout_duration := 60, last_failure_time := none } }

/-- C1 counterexample: at `N = 0` the claim demands the state be OPEN
after exactly `N = 0` circuit-relevant failures, but a fresh breaker
with `max_failures = 0` is still CLOSED after zero failures — no
`record_failure` call ever ran, so no transition could have fired. -/
theorem C1_counterexample :
    cbC1.failure_threshold.max_failures = 0 ∧
    cbC1.failure_threshold.current_count = 0 ∧
    record_failures_n cbC1 faultConn 0 0 = cbC1 ∧
    (record_failures_n cbC1 faultConn 0 0).current_state = CircuitBreakerState.CLOSED ∧
    CircuitBreakerState.CLOSED ≠ CircuitBreakerState.OPEN :=
  ⟨rfl, rfl, rfl, rfl, by decide⟩

/-- Fresh CLOSED breaker with `max_failures = 3` and the default circuit
classifier attached, used to witness C1. -/
def cbC1w : WeaviateCircuitBreaker :=
  { current_state := CircuitBreakerState.CLOSED
    last_state_change := 0
    failure_threshold :=
      { max_failures := 3, current_count := 0, error_classifier := some default_circuit_classifier }
    time_window := { window_duration := 300, timeout_duration := 60, last_failure_time := none } }

/-- Witness for C1 at `N = 3`: two connection failures leave `cbC1w`
CLOSED, the third opens it. -/
theorem C1_witness :
    (record_failures_n cbC1w faultConn 5 2).current_state = CircuitBreakerState.CLOSED ∧
    (record_failures_n cbC1w faultConn 5 3).current_state = CircuitBreakerState.OPEN :=
  C1_threshold_trips cbC1w faultConn 5 3 (by decide) rfl rfl rfl (by decide)

/-! ### C3 -/

/-- C3 (amended): while HALF_OPEN, one `record_success` resets the count
to 0 and closes the breaker, and one `record_failure` re-opens it
whatever the prior count; the failure count is not reset on that
failure — it is incremented by one when the fault is counted as
circuit-relevant and unchanged otherwise.  (The claim's "failure count
retained" fails: a counted fault increments it.) -/
theorem C3_half_open_transitions :
    ∀ (b : WeaviateCircuitBreaker) (e : Fault) (now : ℤ),
      b.current_state = CircuitBreakerState.HALF_OPEN →
      ((b.record_success now).failure_threshold.current_count = 0 ∧
        (b.record_success now).current_state = CircuitBreakerState.CLOSED) ∧
      ((b.record_failure e now).current_state = CircuitBreakerState.OPEN ∧
        (b.record_failure e now).failure_threshold.current_count =
          (if b.failure_threshold.counts_error e then
            b.failure_threshold.current_count + 1
          else b.failure_threshold.current_count)) := by
  intro b e now hs
  refine ⟨⟨?_, ?_⟩, ?_, ?_⟩
  · simp [WeaviateCircuitBreaker.record_success, hs,
      WeaviateCircuitBreaker.transition_to_state, FailureThreshold.reset]
  · simp [WeaviateCircuitBreaker.record_success, hs,
      WeaviateCircuitBreaker.transition_to_state]
  · unfold WeaviateCircuitBreaker.record_failure
    simp [hs, WeaviateCircuitBreaker.transition_to_state]
  · unfold WeaviateCircuitBreaker.record_failure
    simp [hs, WeaviateCircuitBreaker.transition_to_state,
      FailureThreshold.increment_failure]
    split <;> rfl

/-- HALF_OPEN breaker with prior failure count 2 and no classifier. -/
def cbC3 : WeaviateCircuitBreaker :=
  { current_state := CircuitBreakerState.HALF_OPEN
    last_state_change := 0
    failure_threshold := { max_failures := 5, current_count := 2, error_classifier := none }
    time_window := { window_duration := 300, timeout_duration := 60, last_failure_time := some 0 } }

/-- C3 counterexample: on `cbC3` (HALF_OPEN, count 2) a single
`record_failure` moves the state to OPEN but the count to 3 — the count
is incremented, not retained. -/
theorem C3_counterexample :
    cbC3.current_state = CircuitBreakerState.HALF_OPEN ∧
    cbC3.failure_threshold.current_count = 2 ∧
    (cbC3.record_failure faultConn 1).current_state = CircuitBreakerState.OPEN ∧
    (cbC3.record_failure faultConn 1).failure_threshold.current_count = 3 ∧
    (3 : Nat) ≠ 2 :=
  ⟨rfl, rfl, rfl, rfl, by decide⟩

/-- Witness for C3 on the concrete HALF_OPEN breaker `cbC3`. -/
theorem C3_witness :
    ((cbC3.record_success 1).failure_threshold.current_count = 0 ∧
      (cbC3.record_success 1).current_state = CircuitBreakerState.CLOSED) ∧
    ((cbC3.record_failure faultConn 1).current_state = CircuitBreakerState.OPEN ∧
      (cbC3.record_failure faultConn 1).failure_threshold.current_count =
        (if cbC3.failure_threshold.counts_error faultConn then
          cbC3.failure_threshold.current_count + 1
        else cbC3.failure_threshold.current_count)) :=
  C3_half_open_transitions cbC3 faultConn 1 rfl

/-! ### C4 -/

/-- C4 (amended): a fault the attached classifier rejects never
increments `current_count`; it triggers no transition while OPEN, and
none while CLOSED as long as the threshold is not already breached
(`current_count < max_failures`); but while HALF_OPEN any
`record_failure` — relevant or not — moves the breaker to OPEN.  (The
claim's "no transition in every state" fails in HALF_OPEN.) -/
theorem C4_irrelevant_faults :
    ∀ (b : WeaviateCircuitBreaker) (cl : Fault → Bool) (e : Fault) (now : ℤ),
      b.failure_threshold.error_classifier = some cl →
      cl e = false →
      (b.record_failure e now).failure_threshold.current_count =
          b.failure_threshold.current_count ∧
      (b.current_state = CircuitBreakerState.OPEN →
        (b.record_failure e now).current_state = CircuitBreakerState.OPEN) ∧
      (b.current_state = CircuitBreakerState.CLOSED →
        b.failure_threshold.current_count < b.failure_threshold.max_failures →
        (b.record_failure e now).current_state = CircuitBreakerState.CLOSED) ∧
      (b.current_state = CircuitBreakerState.HALF_OPEN →
        (b.record_failure e now).current_state = CircuitBreakerState.OPEN) := by
  intro b cl e now hcl hreject
  have hcounts : b.failure_threshold.counts_error e = false := by
    simp [FailureThreshold.counts_error, hcl, hreject]
  refine ⟨?_, ?_, ?_, ?_⟩
  · unfold WeaviateCircuitBreaker.record_failure
    cases b.current_state <;>
      simp [FailureThreshold.increment_failure, hcounts,
        WeaviateCircuitBreaker.transition_to_state] <;>
      split <;> rfl
  · intro hs
    unfold WeaviateCircuitBreaker.record_failure
    simp [hs, FailureThreshold.increment_failure, hcounts]
  · intro hs hlt
    unfold WeaviateCircuitBreaker.record_failure
    have hnb :
        (FailureThreshold.increment_failure b.failure_threshold e).is_threshold_breached
          = false := by
      simp [FailureThreshold.increment_failure, hcounts,
        FailureThreshold.is_threshold_breached]
      omega
    simp [hs, hnb]
  · intro hs
    unfold WeaviateCircuitBreaker.record_failure
    simp [hs, WeaviateCircuitBreaker.transition_to_state]

/-- HALF_OPEN breaker with the default circuit classifier attached,
used for the C4 counterexample and witness. -/
def cbC4 : WeaviateCircuitBreaker :=
  { current_state := CircuitBreakerState.HALF_OPEN
    last_state_change := 0
    failure_threshold :=
      { max_failures := 5, current_count := 1, error_classifier := some default_circuit_classifier }
    time_window := { window_duration := 300, timeout_duration := 60, last_failure_time := some 0 } }

/-- C4 counterexample: `faultPerm` is not circuit-relevant under the
attached classifier, yet recording it on the HALF_OPEN `cbC4`
transitions the breaker to OPEN (the count stays unchanged). -/
theorem C4_counterexample :
    default_circuit_classifier faultPerm = false ∧
    cbC4.current_state = CircuitBreakerState.HALF_OPEN ∧
    (cbC4.record_failure faultPerm 1).current_state = CircuitBreakerState.OPEN ∧
    CircuitBreakerState.OPEN ≠ CircuitBreakerState.HALF_OPEN ∧
    (cbC4.record_failure faultPerm 1).failure_threshold.current_count = 1 :=
  ⟨rfl, rfl, rfl, by decide, rfl⟩

/-- OPEN breaker with the default circuit classifier attached, used to
witness C4's OPEN clause. -/
def cbC4o : WeaviateCircuitBreaker :=
  { current_state := CircuitBreakerState.OPEN
    last_state_change := 0
    failure_threshold :=
      { max_failures := 5, current_count := 5, error_classifier := some default_circuit_classifier }
    time_window := { window_duration := 300, timeout_duration := 60, last_failure_time := some 0 } }

/-- Witness for C4 on the concrete breakers `cbC4` and `cbC4o`. -/
theorem C4_witness :
    ((cbC4.record_failure faultPerm 1).failure_threshold.current_count =
        cbC4.failure_threshold.current_count ∧
      (cbC4.record_failure faultPerm 1).current_state = CircuitBreakerState.OPEN) ∧
    ((cbC4o.record_failure faultPerm 1).current_state = CircuitBreakerState.OPEN) :=
  ⟨⟨(C4_irrelevant_faults cbC4 default_circuit_classifier faultPerm 1 rfl rfl).1,
      (C4_irrelevant_faults cbC4 default_circuit_classifier faultPerm 1 rfl rfl).2.2.2 rfl⟩,
    (C4_irrelevant_faults cbC4o default_circuit_classifier faultPerm 1 rfl rfl).2.1 rfl⟩

/-! ### C5 -/

/-- C5: `should_retry` is false once `attempt ≥ max_attempts`, false for
a fault the classifier rejects, false when an attached breaker rejects
the request, and true otherwise; with `max_attempts = 3`,
`should_retry 3` is always false and `should_retry 1` on a permanent
fault (default classifier) is always false. -/
theorem C5_should_retry :
    ∀ (p : RetryPolicy) (now : ℤ) (attempt : Nat) (e : Fault),
      (p.max_attempts ≤ attempt → (p.should_retry now attempt e).1 = false) ∧
      (p.error_classifier e = false → (p.should_retry now attempt e).1 = false) ∧
      (∀ cb, p.circuit_breaker = some cb → (cb.should_allow_request now).1 = false →
        (p.should_retry now attempt e).1 = false) ∧
      (attempt < p.max_attempts → p.error_classifier e = true →
        (∀ cb, p.circuit_breaker = some cb → (cb.should_allow_request now).1 = true) →
        (p.should_retry now attempt e).1 = true) ∧
      (p.max_attempts = 3 → (p.should_retry now 3 e).1 = false) ∧
      (p.max_attempts = 3 → p.error_classifier = default_retry_classifier →
        e.ftype = FaultType.weaviatePermanentError → (p.should_retry now 1 e).1 = false) := by
  intro p now attempt e
  refine ⟨?_, ?_, ?_, ?_, ?_, ?_⟩
  · intro h
    simp [RetryPolicy.should_retry, h]
  · intro h
    unfold RetryPolicy.should_retry
    split
    · rfl
    · rw [if_pos]
      simp [h]
  · intro cb hcb hreject
    unfold RetryPolicy.should_retry
    split
    · rfl
    · split
      · rfl
      · simp only [hcb]
        simp [hreject]
  · intro hlt hretry hallow
    unfold RetryPolicy.should_retry
    rw [if_neg (by omega)]
    rw [if_neg (by simp [hretry])]
    cases hcb : p.circuit_breaker with
    | none => rfl
    | some cb =>
        simp only []
        rw [if_neg (by simp [hallow cb hcb])]
  · intro h
    simp [RetryPolicy.should_retry, h]
  · intro hmax hdef hft
    unfold RetryPolicy.should_retry
    rw [if_neg (by omega)]
    rw [if_pos (by simp [hdef, default_retry_classifier, hft])]

/-- Retry policy with `max_attempts = 3`, default classifier and no
breaker (the `RetryPolicy()` defaults of the source). -/
def default_policy : RetryPolicy :=
  { max_attempts := 3
    base_delay := 1
    error_classifier := default_retry_classifier
    circuit_breaker := none }

/-- The same policy with an OPEN, unexpired breaker attached. -/
def policy_open_breaker : RetryPolicy :=
  { default_policy with circuit_breaker := some cbC2 }

/-- A retryable fault under the default retry classifier. -/
def faultTimeout : Fault :=
  { ftype := FaultType.weaviateTimeoutError, message := "operation timed out" }

/-- Witness for C5: exhausted attempts, permanent fault, rejecting
breaker each refuse a retry; an early attempt with a retryable fault and
no breaker is retried. -/
theorem C5_witness :
    (default_policy.should_retry 0 3 faultTimeout).1 = false ∧
    (default_policy.should_retry 0 1 faultPerm).1 = false ∧
    (policy_open_breaker.should_retry 30 1 faultTimeout).1 = false ∧
    (default_policy.should_retry 0 1 faultTimeout).1 = true :=
  ⟨(C5_should_retry default_policy 0 3 faultTimeout).1 (by decide),
    (C5_should_retry default_policy 0 1 faultPerm).2.1 (by decide),
    (C5_should_retry policy_open_breaker 30 1 faultTimeout).2.2.1 cbC2 rfl (by norm_num [cbC2,
      WeaviateCircuitBreaker.should_allow_request, TimeWindow.is_timeout_expired]),
    (C5_should_retry default_policy 0 1 faultTimeout).2.2.2.1 (by decide) (by decide)
      (fun cb hcb => by simp [default_policy] at hcb)⟩

/-! ### C8 -/

/-- C8: the source `is_retryable`, wired with the spec-modelled status
table and timeout-indicator analyzers, follows exactly the spec's
classification order (`spec_classification`); in particular a fault
carrying status 429 is retryable and one carrying status 404 is not. -/
theorem C8_classification_order :
    (∀ e : Fault, spec_classifier.is_retryable e = (spec_classification e).retryable) ∧
    (∀ e : Fault, e.statusCode = some 429 → spec_classifier.is_retryable e = true) ∧
    (∀ e : Fault, e.statusCode = some 404 → spec_classifier.is_retryable e = false) := by
  refine ⟨?_, ?_, ?_⟩
  · intro e
    unfold ErrorClassifier.is_retryable spec_classification
    cases hsc : e.statusCode with
    | none =>
        simp only [spec_classifier, spec_status_analyzer, hsc]
        split_ifs <;> simp [ClassDecision.retryable]
    | some s =>
        by_cases hz : s = 0
        · subst hz
          simp only [spec_classifier, spec_status_analyzer, hsc]
          norm_num
          split_ifs <;> simp_all [ClassDecision.retryable]
        · simp [spec_classifier, spec_status_analyzer, hsc, hz, ClassDecision.retryable]
  · intro e h
    simp [ErrorClassifier.is_retryable, spec_classifier, spec_status_analyzer, h,
      default_status_table]
  · intro e h
    simp [ErrorClassifier.is_retryable, spec_classifier, spec_status_analyzer, h,
      default_status_table]

/-- Fault carrying status 429. -/
def fault429 : Fault :=
  { ftype := FaultType.genericException, message := "too many requests"
    statusCode := some 429 }

/-- Fault carrying status 404, with no timeout indicator in the message. -/
def fault404 : Fault :=
  { ftype := FaultType.genericException, message := "not found"
    statusCode := some 404 }

/-- Witness for C8 on the 429 and 404 scenario faults. -/
theorem C8_witness :
    spec_classifier.is_retryable fault429 = true ∧
    spec_classifier.is_retryable fault404 = false :=
  ⟨C8_classification_order.2.1 fault429 rfl,
    C8_classification_order.2.2 fault404 rfl⟩

/-! ### C6 -/

/-- OPEN breaker (threshold already hit, last failure at time 0,
timeout 60) attached to the retry handler for the C6 run. -/
def cbC6 : WeaviateCircuitBreaker :=
  { current_state := CircuitBreakerState.OPEN
    last_state_change := 0
    failure_threshold := { max_failures := 5, current_count := 5, error_classifier := none }
    time_window := { window_duration := 300, timeout_duration := 60, last_failure_time := some 0 } }

/-- Initial handler state for the C6 run: first attempt, no prior
fault, the OPEN breaker attached, the default policy (whose own breaker
slot is empty, as in `WeaviateRetryHandler(circuit_breaker=...)`). -/
def stateC6 : RetryState :=
  { attempt := 1
    last_exception := none
    circuit_breaker := some cbC6
    policy := default_policy }

/-- The C6 run: the clock stays at time 1 (well inside the 60-unit
timeout), so the breaker rejects every attempt; the operation itself is
never reached. -/
def runC6 : RetryExec :=
  execute_with_retry (fun _ => RetryOutcome.err faultConn) (fun _ => 1) 10 stateC6

/-- C6: evaluating `execute_with_retry` with the breaker open and no
prior fault.  The surfaced fault is the fresh plain
`Exception("Circuit breaker open")` — a `genericException`, not a
`WeaviateCircuitBreakerError`, and retryable under the default
classifier — and the run only ends after three attempts (the fresh
fault was caught by the handler's own `except` clause and retried
twice), with each rejection also recorded on the breaker (count 5 → 8). -/
theorem C6_circuit_open_fault_not_typed :
    runC6.raised = some circuit_open_exception ∧
    circuit_open_exception.ftype = FaultType.genericException ∧
    circuit_open_exception.ftype ≠ FaultType.weaviateCircuitBreakerError ∧
    default_retry_classifier circuit_open_exception = true ∧
    runC6.final_attempt = 3 ∧
    runC6.final_breaker_count = some 8 :=
  ⟨by decide, rfl, by decide, rfl, by decide, by decide⟩

/-! ### C9 -/

/-- Batch loop state with one forever-failing item. -/
def batchStuck : BatchState :=
  { total_successes := 0
    total_failures := 0
    remaining := [7]
    policy := default_policy }

/-- A batch operation that raises nothing and always reports its single
item as failed. -/
def stuckOps : Nat → BatchOutcome :=
  fun _ => BatchOutcome.result [] [7]

/-- Against `stuckOps` the batch loop never finishes, whatever the fuel:
every iteration maps `batchStuck` back to itself. -/
lemma batch_stuck_no_fuel :
    ∀ n round, execute_batch_with_partial_retry stuckOps (fun _ => 0) n round batchStuck
      = none := by
  intro n
  induction n with
  | zero => intro round; rfl
  | succ n ih =>
      intro round
      have hstep : batch_step stuckOps (fun _ => 0) round batchStuck =
          BatchStepResult.next batchStuck := rfl
      rw [execute_batch_with_partial_retry, hstep]
      exact ih (round + 1)

/-- C9 counterexample: with the single item 7 and an operation that
always reports it failed (and never raises), the loop body maps the
state back to itself without exiting — the loop never terminates; in
particular 100 fuel units are exhausted with the loop still going. -/
theorem C9_counterexample :
    execute_batch_with_partial_retry stuckOps (fun _ => 0) 100 0 batchStuck = none ∧
    batch_step stuckOps (fun _ => 0) 0 batchStuck = BatchStepResult.next batchStuck ∧
    batchStuck.remaining ≠ [] :=
  ⟨batch_stuck_no_fuel 100 0, rfl, by decide⟩

/-- C9 (amended): the batch retry loop exits only when no items remain
or when the policy refuses a retry after a raised fault, and at such
exits it returns the accumulated totals — unchanged when the items
drained, with the remaining items added to the failure total when the
policy refused, with the final round's successes added when the last
result reports no failures.  (Termination itself is not guaranteed:
`C9_counterexample` loops forever.) -/
theorem C9_batch_exits :
    ∀ (ops : Nat → BatchOutcome) (tseq : Nat → ℤ) (round fuel : Nat) (s : BatchState),
      (s.remaining = [] →
        execute_batch_with_partial_retry ops tseq (fuel + 1) round s =
          some ((s.total_successes, s.total_failures), s)) ∧
      (∀ e, s.remaining ≠ [] → ops round = BatchOutcome.raised e →
        (s.policy.should_retry (tseq round) 1 e).1 = false →
        (execute_batch_with_partial_retry ops tseq (fuel + 1) round s).map Prod.fst =
          some (s.total_successes, s.total_failures + s.remaining.length)) ∧
      (∀ successes, s.remaining ≠ [] → ops round = BatchOutcome.result successes [] →
        (execute_batch_with_partial_retry ops tseq (fuel + 1) round s).map Prod.fst =
          some (s.total_successes + successes.length, s.total_failures)) := by
  intro ops tseq round fuel s
  refine ⟨?_, ?_, ?_⟩
  · intro h
    rw [execute_batch_with_partial_retry]
    simp [batch_step, h]
  · intro e hne hops hstop
    have hempty : s.remaining.isEmpty = false := by
      cases hr : s.remaining with
      | nil => exact absurd hr hne
      | cons a l => rfl
    rw [execute_batch_with_partial_retry]
    simp [batch_step, hempty, hops, hstop]
  · intro successes hne hops
    have hempty : s.remaining.isEmpty = false := by
      cases hr : s.remaining with
      | nil => exact absurd hr hne
      | cons a l => rfl
    rw [execute_batch_with_partial_retry]
    simp [batch_step, hempty, hops]

/-- Batch state for the C9 witness: two items pending, totals 3/1. -/
def batchC9 : BatchState :=
  { total_successes := 3
    total_failures := 1
    remaining := [4, 5]
    policy := default_policy }

/-- Witness for C9: an empty batch exits immediately with its totals; a
permanent fault (refused by the default classifier) exits adding both
remaining items to the failures; a final result with no failures exits
adding its successes. -/
theorem C9_witness :
    execute_batch_with_partial_retry (fun _ => BatchOutcome.raised faultPerm) (fun _ => 0)
        5 0 { batchC9 with remaining := [] } =
      some ((3, 1), { batchC9 with remaining := [] }) ∧
    (execute_batch_with_partial_retry (fun _ => BatchOutcome.raised faultPerm) (fun _ => 0)
        5 0 batchC9).map Prod.fst = some (3, 3) ∧
    (execute_batch_with_partial_retry (fun _ => BatchOutcome.result [4, 5] []) (fun _ => 0)
        5 0 batchC9).map Prod.fst = some (5, 1) :=
  ⟨(C9_batch_exits (fun _ => BatchOutcome.raised faultPerm) (fun _ => 0) 0 4
      { batchC9 with remaining := [] }).1 rfl,
    (C9_batch_exits (fun _ => BatchOutcome.raised faultPerm) (fun _ => 0) 0 4 batchC9).2.1
      faultPerm (by decide) rfl (by decide),
    (C9_batch_exits (fun _ => BatchOutcome.result [4, 5] []) (fun _ => 0) 0 4 batchC9).2.2
      [4, 5] (by decide) rfl⟩

end Verba
